import Mathlib

/-!
Shallow embedding of the EVTE Monte Carlo economic-viability calculator
(`EVTE.py`): the per-sample cash-flow model `calcular_indicadores` and the
sampling driver `simular_monte_carlo`, together with the fixed baseline
parameters of the dashboard.  Machine reals are modelled as exact
rationals; the per-year lists of the source are modelled as functions of
the year index, with the returned schedules materialised as lists over
years `0 .. anos_projeto`.
-/

/-- Baseline constant `anos_projeto`: project horizon in years. -/
def anos_projeto : ℕ := 15

/-- Baseline constant `taxa_minima_atratividade`: minimum attractive rate of return, in percent. -/
def taxa_minima_atratividade : ℚ := 12

/-- Baseline constant `custo_polimero`: polymer unit cost, currency per barrel. -/
def custo_polimero : ℚ := 2.2

/-- Baseline constant `custos_fixos_anuais`: fixed annual operating cost. -/
def custos_fixos_anuais : ℚ := 1500000

/-- Baseline constant `incremento_recuperacao`: baseline recovery-efficiency increment. -/
def incremento_recuperacao : ℚ := 15

/-- One drawn sample of the five uncertain parameters. -/
structure Parametros where
  preco : ℚ
  investimento : ℚ
  eficiencia : ℚ
  custo : ℚ
  declinio : ℚ

/-- Efficiency scaling factor: sampled increment over the baseline increment. -/
def fator_eficiencia (p : Parametros) : ℚ :=
  p.eficiencia / incremento_recuperacao

/-- The fixed 5-point base ramp `[0, 500, 1200, 1800, 2000]` of daily volumes
(`producao_base` in the source), read as a function of the year. -/
def producao_base : ℕ → ℚ
  | 0 => 0
  | 1 => 500
  | 2 => 1200
  | 3 => 1800
  | _ => 2000

/-- Daily production per year: the base ramp scaled by the efficiency factor
for years 0 to 4, then geometric decline from year 5 through the horizon
(`producao_ajustada` in the source). -/
def producao_ajustada (p : Parametros) : ℕ → ℚ
  | 0 => producao_base 0 * fator_eficiencia p
  | ano + 1 =>
      if ano + 1 < 5 then producao_base (ano + 1) * fator_eficiencia p
      else producao_ajustada p ano * (1 - p.declinio / 100)

/-- Annual production volume: daily volume times 365. -/
def producao_anual (p : Parametros) (ano : ℕ) : ℚ :=
  producao_ajustada p ano * 365

/-- Gross revenue: annual volume times price times the 0.9 quality discount. -/
def receita_bruta (p : Parametros) (ano : ℕ) : ℚ :=
  producao_anual p ano * p.preco * 0.9

/-- Royalties: 10 percent of gross revenue. -/
def royalties (p : Parametros) (ano : ℕ) : ℚ :=
  receita_bruta p ano * 0.1

/-- Net revenue: gross revenue minus royalties. -/
def receita_liquida (p : Parametros) (ano : ℕ) : ℚ :=
  receita_bruta p ano - royalties p ano

/-- Investment outlay schedule: 50 percent in year 0, 30 percent in year 1,
20 percent in year 2, zero thereafter. -/
def investimentos (p : Parametros) (ano : ℕ) : ℚ :=
  if ano = 0 then p.investimento * 0.5
  else if ano = 1 then p.investimento * 0.3
  else if ano = 2 then p.investimento * 0.2
  else 0

/-- Fixed operating cost per year: the fixed annual cost, zero in year 0. -/
def custos_fixos (ano : ℕ) : ℚ :=
  if ano = 0 then 0 else custos_fixos_anuais

/-- Variable operating cost: annual volume times the sampled unit cost. -/
def custos_variaveis (p : Parametros) (ano : ℕ) : ℚ :=
  producao_anual p ano * p.custo

/-- Polymer cost: annual volume times the polymer unit cost. -/
def custos_polimero_ano (p : Parametros) (ano : ℕ) : ℚ :=
  producao_anual p ano * custo_polimero

/-- Total operating cost: fixed plus variable plus polymer. -/
def custos_totais (p : Parametros) (ano : ℕ) : ℚ :=
  custos_fixos ano + custos_variaveis p ano + custos_polimero_ano p ano

/-- Depreciation: 80 percent of the investment, straight-line over years
1 to 10 (capped at the horizon), zero elsewhere. -/
def depreciacao (p : Parametros) (ano : ℕ) : ℚ :=
  if 1 ≤ ano ∧ ano < min 11 (anos_projeto + 1) then p.investimento * 0.8 / 10 else 0

/-- Pre-tax income: net revenue minus total cost minus depreciation. -/
def lucro_antes_impostos (p : Parametros) (ano : ℕ) : ℚ :=
  receita_liquida p ano - custos_totais p ano - depreciacao p ano

/-- Tax: 34 percent of pre-tax income, floored at zero. -/
def impostos (p : Parametros) (ano : ℕ) : ℚ :=
  max 0 (lucro_antes_impostos p ano * 0.34)

/-- Net income: pre-tax income minus tax. -/
def lucro_liquido (p : Parametros) (ano : ℕ) : ℚ :=
  lucro_antes_impostos p ano - impostos p ano

/-- Cash flow: net income plus depreciation added back, minus the
investment outlay of the year. -/
def fluxo_caixa (p : Parametros) (ano : ℕ) : ℚ :=
  lucro_liquido p ano + depreciacao p ano - investimentos p ano

/-- Discount factor for a year, compounded from year 0 at the minimum
attractive rate. -/
def fator_desconto (ano : ℕ) : ℚ :=
  1 / (1 + taxa_minima_atratividade / 100) ^ ano

/-- Discounted cash flow for a year. -/
def fluxo_caixa_descontado (p : Parametros) (ano : ℕ) : ℚ :=
  fluxo_caixa p ano * fator_desconto ano

/-- VPL: sum of the discounted cash flows over years `0 .. anos_projeto`. -/
def vpl (p : Parametros) : ℚ :=
  ∑ ano in Finset.range (anos_projeto + 1), fluxo_caixa_descontado p ano

/-- TIR (approximate): zero when VPL is non-positive, otherwise
`(VPL / investment) * 15 + 12` capped at 50. -/
def tir (p : Parametros) : ℚ :=
  if vpl p ≤ 0 then 0
  else min (vpl p / p.investimento * 15 + 12) 50

/-- Cumulative discounted cash flow through a year (`np.cumsum` in the source). -/
def fluxo_acumulado (p : Parametros) (i : ℕ) : ℚ :=
  ∑ j in Finset.range (i + 1), fluxo_caixa_descontado p j

/-- The crossing search of the payback loop: the first index `i` in
`1 .. anos_projeto` whose cumulative flow is non-negative while the previous
year's cumulative flow is negative. -/
def cruzamento (p : Parametros) : Option ℕ :=
  (List.range' 1 anos_projeto).find?
    (fun i => decide (fluxo_acumulado p (i - 1) < 0 ∧ 0 ≤ fluxo_acumulado p i))

/-- Discounted payback: the horizon when the cumulative flow stays negative;
otherwise linear interpolation at the first negative-to-non-negative crossing;
zero when the loop finds no crossing. -/
def payback (p : Parametros) : ℚ :=
  if (List.range (anos_projeto + 1)).all (fun i => decide (fluxo_acumulado p i < 0)) then
    (anos_projeto : ℚ)
  else
    match cruzamento p with
    | some i =>
        (i : ℚ) - 1 +
          |fluxo_acumulado p (i - 1)| / |fluxo_acumulado p i - fluxo_acumulado p (i - 1)|
    | none => 0

/-- The record returned by `calcular_indicadores`. -/
structure Indicadores where
  VPL : ℚ
  TIR : ℚ
  Payback : ℚ
  Fluxo_Caixa : List ℚ
  Fluxo_Caixa_Descontado : List ℚ

/-- The per-sample model evaluation of the source: summary indicators plus
the year-by-year cash-flow schedules. -/
def calcular_indicadores (p : Parametros) : Indicadores :=
  ⟨vpl p, tir p, payback p,
    (List.range (anos_projeto + 1)).map (fluxo_caixa p),
    (List.range (anos_projeto + 1)).map (fluxo_caixa_descontado p)⟩

/-- The base-case sample of the dashboard: price 70, investment 45,000,000,
efficiency 15, cost 8, decline 5. -/
def pBase : Parametros :=
  ⟨70, 45000000, 15, 8, 5⟩

/-- A degenerate sample with zero oil price, used to exercise the
non-positive-VPL branch. -/
def pZero : Parametros :=
  ⟨0, 45000000, 15, 8, 5⟩

/-- The caller-supplied uniform ranges of the dashboard sidebar: price,
investment (in millions) and efficiency. -/
structure Faixas where
  preco_min : ℚ
  preco_max : ℚ
  investimento_min : ℚ
  investimento_max : ℚ
  eficiencia_min : ℚ
  eficiencia_max : ℚ

/-- A deterministic draw-consuming pseudo-random source over a state type: a
seeding function and a step producing one unit-interval value.  It abstracts
the sequential `np.random` stream of the source. -/
structure RNG (σ : Type) where
  seed : ℕ → σ
  next : σ → ℚ × σ

/-- A uniform draw on `[lo, hi]` realised from one unit-interval value. -/
def uniform (lo hi u : ℚ) : ℚ :=
  lo + u * (hi - lo)

/-- One row of the result table: the 1-based simulation index, the five
sampled inputs as recorded, and the three summary indicators. -/
structure Linha where
  simulacao : ℕ
  preco : ℚ
  investimento : ℚ
  eficiencia : ℚ
  custo : ℚ
  declinio : ℚ
  vpl : ℚ
  tir : ℚ
  payback : ℚ

/-- The sampling loop of `simular_monte_carlo`: per iteration the five draws
occur in the fixed order price, investment, efficiency, cost, decline, the
investment draw is multiplied by 1,000,000, the model is evaluated and the row
is appended with the 1-based index. -/
def simular_loop {σ : Type} (G : RNG σ) (f : Faixas) : ℕ → ℕ → σ → List Linha × σ
  | 0, _, s => ([], s)
  | k + 1, i, s =>
      let u1 := G.next s
      let preco := uniform f.preco_min f.preco_max u1.1
      let u2 := G.next u1.2
      let investimento := uniform f.investimento_min f.investimento_max u2.1 * 1000000
      let u3 := G.next u2.2
      let eficiencia := uniform f.eficiencia_min f.eficiencia_max u3.1
      let u4 := G.next u3.2
      let custo := uniform 6.8 10.4 u4.1
      let u5 := G.next u4.2
      let declinio := uniform 2 10 u5.1
      let ind := calcular_indicadores ⟨preco, investimento, eficiencia, custo, declinio⟩
      let resto := simular_loop G f k (i + 1) u5.2
      (⟨i + 1, preco, investimento, eficiencia, custo, declinio,
          ind.VPL, ind.TIR, ind.Payback⟩ :: resto.1, resto.2)

/-- The Monte Carlo driver: it re-seeds the random source with the fixed
seed 42, discarding whatever state the source was in, and runs the sampling
loop for the requested number of iterations. -/
def simular_monte_carlo {σ : Type} (G : RNG σ) (f : Faixas) (num_simulacoes : ℕ)
    (s : σ) : List Linha × σ :=
  simular_loop G f num_simulacoes 0 (G.seed 42)

/-- The step of a concrete linear-congruential generator delivering one
unit-interval rational per call. -/
def lcg_passo (s : ℕ) : ℚ × ℕ :=
  let s2 := (1103515245 * s + 12345) % 2147483648
  (((s2 % 1000 : ℕ) : ℚ) / 1000, s2)

/-- A concrete instance of the abstract random source, used to instantiate
the driver on explicit inputs. -/
def lcgRNG : RNG ℕ :=
  ⟨fun n => n, lcg_passo⟩

/-- The default sidebar ranges of the dashboard: price 50 to 90, investment
36 to 63 (millions), efficiency 10 to 18. -/
def faixas0 : Faixas :=
  ⟨50, 90, 36, 63, 10, 18⟩

/-- Summing a function mapped over `List.range` agrees with the `Finset.range`
sum of the same function. -/
lemma sum_map_range (f : ℕ → ℚ) : ∀ n, ((List.range n).map f).sum = ∑ i in Finset.range n, f i
  | 0 => by simp
  | n + 1 => by
      rw [List.range_succ, List.map_append, List.sum_append,
        Finset.sum_range_succ, sum_map_range f n]
      simp

/-- A uniform draw realised from a unit-interval value stays inside an ordered
range, endpoints included. -/
lemma uniform_mem (lo hi u : ℚ) (hlh : lo ≤ hi) (h0 : 0 ≤ u) (h1 : u ≤ 1) :
    lo ≤ uniform lo hi u ∧ uniform lo hi u ≤ hi := by
  unfold uniform
  constructor <;> nlinarith

/-- The concrete generator only emits unit-interval values. -/
lemma lcg_unit (t : ℕ) : 0 ≤ (lcgRNG.next t).1 ∧ (lcgRNG.next t).1 ≤ 1 := by
  unfold lcgRNG lcg_passo
  constructor
  · positivity
  · rw [div_le_one (by norm_num)]
    exact_mod_cast (Nat.mod_lt _ (by norm_num)).le

/-- `List.find?` on a unit-step `range'` returns the least element of the
range satisfying the predicate. -/
lemma find?_range'_eq_some (q : ℕ → Bool) :
    ∀ (n s i : ℕ), s ≤ i → i < s + n → q i = true →
      (∀ j, s ≤ j → j < i → q j = false) →
      (List.range' s n).find? q = some i := by
  intro n
  induction n with
  | zero =>
      intro s i h1 h2 _ _
      omega
  | succ n ih =>
      intro s i h1 h2 h3 h4
      rw [List.range'_succ]
      by_cases hsi : s = i
      · subst hsi
        rw [List.find?_cons_of_pos _ h3]
      · have hq : q s = false := h4 s le_rfl (by omega)
        rw [List.find?_cons_of_neg _ (by simp [hq])]
        exact ih (s + 1) i (by omega) (by omega) h3 (fun j hj1 hj2 => h4 j (by omega) hj2)

/-- The guard of the payback computation, read back as a statement about all
years of the horizon. -/
lemma payback_guard_iff (p : Parametros) :
    ((List.range (anos_projeto + 1)).all (fun i => decide (fluxo_acumulado p i < 0)) = true) ↔
      ∀ i, i ≤ anos_projeto → fluxo_acumulado p i < 0 := by
  simp [List.all_eq_true, List.mem_range, Nat.lt_succ_iff]

/-- The cash flow of year 0 is minus half the investment: there is no revenue,
no operating cost and no depreciation in year 0. -/
lemma fluxo_caixa_zero (p : Parametros) : fluxo_caixa p 0 = -(p.investimento * 0.5) := by
  simp [fluxo_caixa, lucro_liquido, lucro_antes_impostos, impostos,
    receita_liquida, receita_bruta, royalties, producao_anual, producao_ajustada,
    producao_base, custos_totais, custos_fixos, custos_variaveis,
    custos_polimero_ano, depreciacao, investimentos, fator_eficiencia]

/-- The cumulative discounted flow at year 0 is minus half the investment. -/
lemma fluxo_acumulado_zero (p : Parametros) :
    fluxo_acumulado p 0 = -(p.investimento * 0.5) := by
  rw [fluxo_acumulado, Finset.sum_range_one, fluxo_caixa_descontado,
    fluxo_caixa_zero, fator_desconto]
  norm_num

/-- Every value of the base ramp is non-negative. -/
lemma producao_base_nonneg (ano : ℕ) : 0 ≤ producao_base ano := by
  unfold producao_base
  split <;> norm_num

/-- From year 5 on the production is the previous year's production scaled by
the decline factor. -/
lemma producao_ajustada_succ (p : Parametros) (ano : ℕ) (h : 4 ≤ ano) :
    producao_ajustada p (ano + 1) = producao_ajustada p ano * (1 - p.declinio / 100) := by
  rw [producao_ajustada, if_neg (by omega)]

/-- With a non-negative efficiency and a decline rate of at most 100, the
production of every year is non-negative. -/
lemma producao_nonneg (p : Parametros) (he : 0 ≤ p.eficiencia)
    (hd : p.declinio ≤ 100) : ∀ ano, 0 ≤ producao_ajustada p ano := by
  have hfe : 0 ≤ fator_eficiencia p := by
    rw [fator_eficiencia, incremento_recuperacao]
    exact div_nonneg he (by norm_num)
  intro ano
  induction ano with
  | zero =>
      rw [producao_ajustada]
      exact mul_nonneg (producao_base_nonneg 0) hfe
  | succ n ih =>
      rw [producao_ajustada]
      split
      · exact mul_nonneg (producao_base_nonneg _) hfe
      · exact mul_nonneg ih (by linarith)

/-- With a positive efficiency and a decline rate below 100, the production of
every year from the peak on is strictly positive. -/
lemma producao_pos (p : Parametros) (he : 0 < p.eficiencia)
    (hd : p.declinio < 100) : ∀ ano, 4 ≤ ano → 0 < producao_ajustada p ano := by
  have hfe : 0 < fator_eficiencia p := by
    rw [fator_eficiencia, incremento_recuperacao]
    exact div_pos he (by norm_num)
  intro ano
  induction ano with
  | zero => omega
  | succ n ih =>
      intro h
      by_cases h5 : n + 1 < 5
      · rw [producao_ajustada, if_pos h5]
        have h4 : n + 1 = 4 := by omega
        rw [h4]
        have h2000 : producao_base 4 = 2000 := rfl
        rw [h2000]
        exact mul_pos (by norm_num) hfe
      · rw [producao_ajustada, if_neg h5]
        exact mul_pos (ih (by omega)) (by linarith)

/-- Claim C1: for every sample, the TIR of the model evaluation is 0 exactly
when the VPL is non-positive; when the VPL is positive it equals
`(VPL / investment) * 15 + 12` capped at 50, and is therefore at most 50. -/
theorem tir_formula_e_teto (p : Parametros) :
    ((calcular_indicadores p).VPL ≤ 0 → (calcular_indicadores p).TIR = 0) ∧
      (0 < (calcular_indicadores p).VPL →
        (calcular_indicadores p).TIR =
            min ((calcular_indicadores p).VPL / p.investimento * 15 + 12) 50 ∧
          (calcular_indicadores p).TIR ≤ 50) := by
  simp only [calcular_indicadores]
  constructor
  · intro h
    rw [tir, if_pos h]
  · intro h
    rw [tir, if_neg (not_le.mpr h)]
    exact ⟨rfl, min_le_right _ _⟩

/-- Concrete instantiation of the TIR claim: the zero-price sample has
non-positive VPL and zero TIR, the base sample has positive VPL and TIR at
most 50. -/
theorem tir_formula_e_teto_aplicado :
    ((calcular_indicadores pZero).VPL ≤ 0 ∧ (calcular_indicadores pZero).TIR = 0) ∧
      (0 < (calcular_indicadores pBase).VPL ∧ (calcular_indicadores pBase).TIR ≤ 50) := by
  have h0 : (calcular_indicadores pZero).VPL ≤ 0 := by
    norm_num [calcular_indicadores, vpl, Finset.sum_range_succ,
      fluxo_caixa_descontado, fator_desconto, taxa_minima_atratividade,
      fluxo_caixa, lucro_liquido, lucro_antes_impostos, impostos,
      receita_liquida, receita_bruta, royalties, producao_anual,
      producao_ajustada, producao_base, custos_totais, custos_fixos,
      custos_variaveis, custos_polimero_ano, custo_polimero,
      custos_fixos_anuais, depreciacao, investimentos, fator_eficiencia,
      incremento_recuperacao, anos_projeto, pZero]
  have h1 : 0 < (calcular_indicadores pBase).VPL := by
    norm_num [calcular_indicadores, vpl, Finset.sum_range_succ,
      fluxo_caixa_descontado, fator_desconto, taxa_minima_atratividade,
      fluxo_caixa, lucro_liquido, lucro_antes_impostos, impostos,
      receita_liquida, receita_bruta, royalties, producao_anual,
      producao_ajustada, producao_base, custos_totais, custos_fixos,
      custos_variaveis, custos_polimero_ano, custo_polimero,
      custos_fixos_anuais, depreciacao, investimentos, fator_eficiencia,
      incremento_recuperacao, anos_projeto, pBase]
  exact ⟨⟨h0, (tir_formula_e_teto pZero).1 h0⟩,
    ⟨h1, ((tir_formula_e_teto pBase).2 h1).2⟩⟩

/-- Claim C4: on the base scenario (price 70, investment 45,000,000,
efficiency 15, cost 8, decline 5) the year-0 entry of the returned cash-flow
schedule is −22,500,000, and the year-5 daily production is the peak ramp
value `2000 * 1` with the decline factor applied exactly once. -/
theorem cenario_base_concreto :
    ((calcular_indicadores pBase).Fluxo_Caixa)[0]? = some ((-22500000 : ℚ)) ∧
      producao_ajustada pBase 5 = 2000 * 1 * (1 - 0.05) := by
  constructor
  · simp only [calcular_indicadores]
    rw [List.getElem?_map, List.getElem?_range (by norm_num)]
    simp only [Option.map_some']
    rw [fluxo_caixa_zero]
    norm_num [pBase]
  · norm_num [producao_ajustada, producao_base, fator_eficiencia,
      incremento_recuperacao, pBase]

/-- Claim C6: for every sample, the VPL of the model evaluation equals the sum
of the discounted cash-flow schedule returned with it (exactly, over the
rationals). -/
theorem vpl_soma_do_fluxo_descontado (p : Parametros) :
    (calcular_indicadores p).VPL = ((calcular_indicadores p).Fluxo_Caixa_Descontado).sum := by
  simp only [calcular_indicadores]
  rw [vpl, sum_map_range]

/-- Claim C8: for every sample and every year, the tax is non-negative, and a
year with negative taxable income pays exactly zero tax. -/
theorem impostos_nao_negativos (p : Parametros) (ano : ℕ) :
    0 ≤ impostos p ano ∧ (lucro_antes_impostos p ano < 0 → impostos p ano = 0) := by
  rw [impostos]
  constructor
  · exact le_max_left 0 _
  · intro h
    exact max_eq_left (by nlinarith)

/-- Concrete instantiation of the tax claim at the base sample, year 1. -/
theorem impostos_nao_negativos_aplicado :
    0 ≤ impostos pBase 1 ∧ (lucro_antes_impostos pBase 1 < 0 → impostos pBase 1 = 0) :=
  impostos_nao_negativos pBase 1

/-- Claim C10: for every sample with positive investment, the TIR of the model
evaluation is either exactly 0 (when the VPL is non-positive) or lies in the
half-open interval from 12 exclusive to 50 inclusive; it never falls in the
interval from 0 exclusive to 12 inclusive. -/
theorem tir_nunca_entre_zero_e_doze (p : Parametros) (hinv : 0 < p.investimento) :
    (calcular_indicadores p).TIR = 0 ∨
      (12 < (calcular_indicadores p).TIR ∧ (calcular_indicadores p).TIR ≤ 50) := by
  simp only [calcular_indicadores]
  by_cases h : vpl p ≤ 0
  · left
    rw [tir, if_pos h]
  · right
    rw [tir, if_neg h]
    refine ⟨lt_min ?_ (by norm_num), min_le_right _ _⟩
    have hv : 0 < vpl p := not_le.mp h
    have : 0 < vpl p / p.investimento := div_pos hv hinv
    nlinarith

/-- Concrete instantiation of the TIR-interval claim at the base sample. -/
theorem tir_nunca_entre_zero_e_doze_aplicado :
    0 < pBase.investimento ∧
      ((calcular_indicadores pBase).TIR = 0 ∨
        (12 < (calcular_indicadores pBase).TIR ∧ (calcular_indicadores pBase).TIR ≤ 50)) :=
  ⟨by norm_num [pBase], tir_nunca_entre_zero_e_doze pBase (by norm_num [pBase])⟩

/-- Claim C9: for every sample with positive efficiency and decline rate in
the interval from 0 inclusive to 100 exclusive, a strictly positive decline
rate makes the daily production strictly decrease every year from year 5 up to
the horizon, and the production of every year of the horizon is non-negative. -/
theorem declinio_monotono (p : Parametros) (he : 0 < p.eficiencia)
    (hd0 : 0 ≤ p.declinio) (hd1 : p.declinio < 100) :
    (0 < p.declinio → ∀ ano, 5 ≤ ano → ano ≤ anos_projeto →
      producao_ajustada p ano < producao_ajustada p (ano - 1)) ∧
      (∀ ano, ano ≤ anos_projeto → 0 ≤ producao_ajustada p ano) := by
  constructor
  · intro hdpos ano h5 _
    obtain ⟨n, rfl⟩ : ∃ n, ano = n + 1 := ⟨ano - 1, by omega⟩
    have h4 : 4 ≤ n := by omega
    rw [producao_ajustada_succ p n h4]
    simp only [Nat.add_sub_cancel]
    have hpos : 0 < producao_ajustada p n := producao_pos p he hd1 n h4
    nlinarith [mul_pos hpos hdpos]
  · intro ano _
    exact producao_nonneg p he.le hd1.le ano

/-- Concrete instantiation of the decline claim at the base sample. -/
theorem declinio_monotono_aplicado :
    (0 < pBase.eficiencia ∧ 0 ≤ pBase.declinio ∧ pBase.declinio < 100) ∧
      ((0 < pBase.declinio → ∀ ano, 5 ≤ ano → ano ≤ anos_projeto →
        producao_ajustada pBase ano < producao_ajustada pBase (ano - 1)) ∧
        (∀ ano, ano ≤ anos_projeto → 0 ≤ producao_ajustada pBase ano)) :=
  ⟨⟨by norm_num [pBase], by norm_num [pBase], by norm_num [pBase]⟩,
    declinio_monotono pBase (by norm_num [pBase]) (by norm_num [pBase])
      (by norm_num [pBase])⟩

/-- When every cumulative flow of the horizon is negative the payback is the
horizon. -/
lemma payback_all_neg (p : Parametros)
    (hall : (List.range (anos_projeto + 1)).all
        (fun i => decide (fluxo_acumulado p i < 0)) = true) :
    payback p = (anos_projeto : ℚ) := by
  unfold payback
  rw [if_pos hall]

/-- When some cumulative flow is non-negative and the crossing search fails,
the payback is zero. -/
lemma payback_sem_cruzamento (p : Parametros)
    (hall : ¬ ((List.range (anos_projeto + 1)).all
        (fun i => decide (fluxo_acumulado p i < 0)) = true))
    (h : cruzamento p = none) : payback p = 0 := by
  unfold payback
  rw [if_neg hall, h]

/-- When some cumulative flow is non-negative and the crossing search returns
an index, the payback is the interpolation formula at that index. -/
lemma payback_com_cruzamento (p : Parametros) (i : ℕ)
    (hall : ¬ ((List.range (anos_projeto + 1)).all
        (fun i => decide (fluxo_acumulado p i < 0)) = true))
    (h : cruzamento p = some i) :
    payback p = (i : ℚ) - 1 +
      |fluxo_acumulado p (i - 1)| / |fluxo_acumulado p i - fluxo_acumulado p (i - 1)| := by
  unfold payback
  rw [if_neg hall, h]

/-- Claim C7: for every sample, the payback of the model evaluation lies in
the closed interval from 0 to the project horizon. -/
theorem payback_entre_zero_e_horizonte (p : Parametros) :
    0 ≤ (calcular_indicadores p).Payback ∧
      (calcular_indicadores p).Payback ≤ (anos_projeto : ℚ) := by
  have hP : (calcular_indicadores p).Payback = payback p := rfl
  rw [hP]
  by_cases hall : (List.range (anos_projeto + 1)).all
      (fun i => decide (fluxo_acumulado p i < 0)) = true
  · rw [payback_all_neg p hall]
    norm_num [anos_projeto]
  · cases hcz : cruzamento p with
    | none =>
        rw [payback_sem_cruzamento p hall hcz]
        norm_num [anos_projeto]
    | some i =>
        rw [payback_com_cruzamento p i hall hcz]
        rw [cruzamento] at hcz
        have hq : fluxo_acumulado p (i - 1) < 0 ∧ 0 ≤ fluxo_acumulado p i := by
          have hqb := List.find?_some hcz
          simpa using hqb
        have hmem := List.mem_range'_1.mp (List.mem_of_find?_eq_some hcz)
        obtain ⟨hc1, hc2⟩ := hq
        have hdpos : 0 < fluxo_acumulado p i - fluxo_acumulado p (i - 1) := by linarith
        constructor
        · have hfrac : 0 ≤ |fluxo_acumulado p (i - 1)| /
              |fluxo_acumulado p i - fluxo_acumulado p (i - 1)| :=
            div_nonneg (abs_nonneg _) (abs_nonneg _)
          have hcast : (1 : ℚ) ≤ (i : ℚ) := by exact_mod_cast hmem.1
          linarith
        · have hfrac : |fluxo_acumulado p (i - 1)| /
              |fluxo_acumulado p i - fluxo_acumulado p (i - 1)| ≤ 1 := by
            rw [abs_of_neg hc1, abs_of_pos hdpos, div_le_one hdpos]
            linarith
          have hcast : (i : ℚ) ≤ (anos_projeto : ℚ) := by
            exact_mod_cast (by omega : i ≤ anos_projeto)
          linarith

/-- Claim C3: for every sample with positive investment, the payback is the
horizon when the cumulative discounted flow stays negative through the
horizon; it is the linear interpolation `(i - 1) + |cum (i-1)| / |cum i - cum (i-1)|`
at the first index whose cumulative flow turns non-negative after a negative
previous year; and it equals 0 exactly when no negative cumulative year is
ever observed. -/
theorem payback_caracterizado (p : Parametros) (hinv : 0 < p.investimento) :
    ((∀ i, i ≤ anos_projeto → fluxo_acumulado p i < 0) →
        payback p = (anos_projeto : ℚ)) ∧
      (∀ i, 1 ≤ i → i ≤ anos_projeto → fluxo_acumulado p (i - 1) < 0 →
        0 ≤ fluxo_acumulado p i →
        (∀ j, 1 ≤ j → j < i →
          ¬(fluxo_acumulado p (j - 1) < 0 ∧ 0 ≤ fluxo_acumulado p j)) →
        payback p = (i : ℚ) - 1 +
          |fluxo_acumulado p (i - 1)| / |fluxo_acumulado p i - fluxo_acumulado p (i - 1)|) ∧
      (payback p = 0 ↔ ∀ i, i ≤ anos_projeto → 0 ≤ fluxo_acumulado p i) := by
  have hc0 : fluxo_acumulado p 0 < 0 := by
    rw [fluxo_acumulado_zero]
    nlinarith
  refine ⟨?_, ?_, ?_⟩
  · intro h
    exact payback_all_neg p ((payback_guard_iff p).mpr h)
  · intro i h1 h2 hneg hpos hfirst
    have hall : ¬ ((List.range (anos_projeto + 1)).all
        (fun i => decide (fluxo_acumulado p i < 0)) = true) :=
      fun hg => absurd ((payback_guard_iff p).mp hg i h2) (not_lt.mpr hpos)
    have hcz : cruzamento p = some i := by
      rw [cruzamento]
      refine find?_range'_eq_some _ anos_projeto 1 i h1 (by omega) ?_ ?_
      · exact decide_eq_true ⟨hneg, hpos⟩
      · intro j hj1 hj2
        exact decide_eq_false (hfirst j hj1 hj2)
    exact payback_com_cruzamento p i hall hcz
  · have hR : ¬ (∀ i, i ≤ anos_projeto → 0 ≤ fluxo_acumulado p i) :=
      fun h => absurd (h 0 (Nat.zero_le _)) (not_le.mpr hc0)
    refine iff_of_false ?_ hR
    by_cases hall : (List.range (anos_projeto + 1)).all
        (fun i => decide (fluxo_acumulado p i < 0)) = true
    · rw [payback_all_neg p hall]
      norm_num [anos_projeto]
    · cases hcz : cruzamento p with
      | some j =>
          rw [payback_com_cruzamento p j hall hcz]
          rw [cruzamento] at hcz
          have hq : fluxo_acumulado p (j - 1) < 0 ∧ 0 ≤ fluxo_acumulado p j := by
            have hqb := List.find?_some hcz
            simpa using hqb
          have hmem := List.mem_range'_1.mp (List.mem_of_find?_eq_some hcz)
          obtain ⟨hc1, hc2⟩ := hq
          have hdpos : 0 < fluxo_acumulado p j - fluxo_acumulado p (j - 1) := by
            linarith
          have hfrac : 0 < |fluxo_acumulado p (j - 1)| /
              |fluxo_acumulado p j - fluxo_acumulado p (j - 1)| :=
            div_pos (abs_pos.mpr (ne_of_lt hc1)) (abs_pos.mpr (ne_of_gt hdpos))
          have hcast : (1 : ℚ) ≤ (j : ℚ) := by exact_mod_cast hmem.1
          intro h0
          linarith
      | none =>
          exfalso
          have hex : ∃ i, i < anos_projeto + 1 ∧ 0 ≤ fluxo_acumulado p i := by
            by_contra hnone
            push_neg at hnone
            exact hall ((payback_guard_iff p).mpr (fun i hi => hnone i (by omega)))
          obtain ⟨hi0lt, hi0pos⟩ := Nat.find_spec hex
          have hi0ne : Nat.find hex ≠ 0 := by
            intro h
            rw [h] at hi0pos
            exact absurd hi0pos (not_le.mpr hc0)
          have hprev : fluxo_acumulado p (Nat.find hex - 1) < 0 := by
            have hmin := Nat.find_min hex (m := Nat.find hex - 1) (by omega)
            push_neg at hmin
            exact hmin (by omega)
          rw [cruzamento] at hcz
          have hnf := List.find?_eq_none.mp hcz (Nat.find hex)
            (List.mem_range'_1.mpr ⟨by omega, by omega⟩)
          exact hnf (decide_eq_true ⟨hprev, hi0pos⟩)

/-- Concrete instantiation of the payback characterization at the base
sample. -/
theorem payback_caracterizado_aplicado :
    0 < pBase.investimento ∧
      (((∀ i, i ≤ anos_projeto → fluxo_acumulado pBase i < 0) →
          payback pBase = (anos_projeto : ℚ)) ∧
        (∀ i, 1 ≤ i → i ≤ anos_projeto → fluxo_acumulado pBase (i - 1) < 0 →
          0 ≤ fluxo_acumulado pBase i →
          (∀ j, 1 ≤ j → j < i →
            ¬(fluxo_acumulado pBase (j - 1) < 0 ∧ 0 ≤ fluxo_acumulado pBase j)) →
          payback pBase = (i : ℚ) - 1 +
            |fluxo_acumulado pBase (i - 1)| /
              |fluxo_acumulado pBase i - fluxo_acumulado pBase (i - 1)|) ∧
        (payback pBase = 0 ↔ ∀ i, i ≤ anos_projeto → 0 ≤ fluxo_acumulado pBase i)) :=
  ⟨by norm_num [pBase], payback_caracterizado pBase (by norm_num [pBase])⟩

/-- Claim C5: for every sample count, every configuration of ranges and every
deterministic random source, two invocations of the Monte Carlo run produce
identical result tables regardless of the states the source was left in,
because the run re-seeds the source with the fixed seed 42 before drawing,
and the five draws per iteration occur in a fixed order. -/
theorem simulacao_deterministica {σ : Type} (G : RNG σ) (f : Faixas)
    (num_simulacoes : ℕ) (s t : σ) :
    (simular_monte_carlo G f num_simulacoes s).1 =
      (simular_monte_carlo G f num_simulacoes t).1 := rfl

/-- Claim C2 counterexample: with the default sidebar ranges (investment 36
to 63, given in millions) and a concrete deterministic source, the recorded
investment of the produced table does not lie within the caller's range
`[investimento_min, investimento_max]`: the driver multiplies the draw by
1,000,000 before recording it. -/
theorem faixa_investimento_contra_exemplo :
    ¬ ∀ l ∈ (simular_monte_carlo lcgRNG faixas0 1 0).1,
        faixas0.investimento_min ≤ l.investimento ∧
          l.investimento ≤ faixas0.investimento_max := by
  norm_num [simular_monte_carlo, simular_loop, lcgRNG, lcg_passo, faixas0, uniform]

/-- Every row produced by the sampling loop records draws inside the sampled
ranges, with the investment range scaled by 1,000,000. -/
lemma simular_loop_faixas {σ : Type} (G : RNG σ) (f : Faixas)
    (hu : ∀ t, 0 ≤ (G.next t).1 ∧ (G.next t).1 ≤ 1)
    (hp : f.preco_min ≤ f.preco_max)
    (hi : f.investimento_min ≤ f.investimento_max)
    (he : f.eficiencia_min ≤ f.eficiencia_max) :
    ∀ (k i : ℕ) (s : σ), ∀ l ∈ (simular_loop G f k i s).1,
      (f.preco_min ≤ l.preco ∧ l.preco ≤ f.preco_max) ∧
        (f.investimento_min * 1000000 ≤ l.investimento ∧
          l.investimento ≤ f.investimento_max * 1000000) ∧
        (f.eficiencia_min ≤ l.eficiencia ∧ l.eficiencia ≤ f.eficiencia_max) ∧
        (6.8 ≤ l.custo ∧ l.custo ≤ 10.4) ∧
        (2 ≤ l.declinio ∧ l.declinio ≤ 10) := by
  intro k
  induction k with
  | zero =>
      intro i s l hl
      simp [simular_loop] at hl
  | succ n ih =>
      intro i s l hl
      rw [simular_loop] at hl
      simp only [List.mem_cons] at hl
      rcases hl with hl | hl
      · subst hl
        have h2 := uniform_mem f.investimento_min f.investimento_max
          (G.next (G.next s).2).1 hi (hu _).1 (hu _).2
        refine ⟨?_, ⟨?_, ?_⟩, ?_, ?_, ?_⟩
        · exact uniform_mem _ _ _ hp (hu _).1 (hu _).2
        · exact mul_le_mul_of_nonneg_right h2.1 (by norm_num)
        · exact mul_le_mul_of_nonneg_right h2.2 (by norm_num)
        · exact uniform_mem _ _ _ he (hu _).1 (hu _).2
        · exact uniform_mem _ _ _ (by norm_num) (hu _).1 (hu _).2
        · exact uniform_mem _ _ _ (by norm_num) (hu _).1 (hu _).2
      · exact ih (i + 1) _ l hl

/-- Claim C2 amended: for every sample count, every random source emitting
unit-interval values and every ordered configuration of ranges, all recorded
parameters lie inside their sampled ranges, with the investment lying in the
caller's range scaled by 1,000,000 (the caller supplies it in millions). -/
theorem faixas_respeitadas_apos_conversao {σ : Type} (G : RNG σ) (f : Faixas)
    (num_simulacoes : ℕ) (s : σ)
    (hu : ∀ t, 0 ≤ (G.next t).1 ∧ (G.next t).1 ≤ 1)
    (hp : f.preco_min ≤ f.preco_max)
    (hi : f.investimento_min ≤ f.investimento_max)
    (he : f.eficiencia_min ≤ f.eficiencia_max) :
    ∀ l ∈ (simular_monte_carlo G f num_simulacoes s).1,
      (f.preco_min ≤ l.preco ∧ l.preco ≤ f.preco_max) ∧
        (f.investimento_min * 1000000 ≤ l.investimento ∧
          l.investimento ≤ f.investimento_max * 1000000) ∧
        (f.eficiencia_min ≤ l.eficiencia ∧ l.eficiencia ≤ f.eficiencia_max) ∧
        (6.8 ≤ l.custo ∧ l.custo ≤ 10.4) ∧
        (2 ≤ l.declinio ∧ l.declinio ≤ 10) := by
  intro l hl
  exact simular_loop_faixas G f hu hp hi he num_simulacoes 0 (G.seed 42) l hl

/-- Concrete instantiation of the amended range claim on the concrete source
and the default sidebar ranges. -/
theorem faixas_respeitadas_apos_conversao_aplicado :
    (∀ t : ℕ, 0 ≤ (lcgRNG.next t).1 ∧ (lcgRNG.next t).1 ≤ 1) ∧
      faixas0.preco_min ≤ faixas0.preco_max ∧
      faixas0.investimento_min ≤ faixas0.investimento_max ∧
      faixas0.eficiencia_min ≤ faixas0.eficiencia_max ∧
      ∀ l ∈ (simular_monte_carlo lcgRNG faixas0 2 0).1,
        (faixas0.preco_min ≤ l.preco ∧ l.preco ≤ faixas0.preco_max) ∧
          (faixas0.investimento_min * 1000000 ≤ l.investimento ∧
            l.investimento ≤ faixas0.investimento_max * 1000000) ∧
          (faixas0.eficiencia_min ≤ l.eficiencia ∧
            l.eficiencia ≤ faixas0.eficiencia_max) ∧
          (6.8 ≤ l.custo ∧ l.custo ≤ 10.4) ∧
          (2 ≤ l.declinio ∧ l.declinio ≤ 10) :=
  ⟨lcg_unit, by norm_num [faixas0], by norm_num [faixas0], by norm_num [faixas0],
    faixas_respeitadas_apos_conversao lcgRNG faixas0 2 0 lcg_unit
      (by norm_num [faixas0]) (by norm_num [faixas0]) (by norm_num [faixas0])⟩
